import Mathlib

/-!
Shallow embedding of the `DataMerger` component of the dao-governance-scraper
repository (`src/src/merger/data_merger.py`).

Tabular data is modelled as a `DataFrame`: a column-name list together with a
list of rows, each row a list of values aligned with the columns (pandas
frames built from record dicts, with the default positional integer index).
A pandas `Series` obtained from a row is modelled as an association list from
field name to value.

Scalar cell values are modelled by `Value`: strings, integers, rationals
(standing for Python floats, e.g. similarity scores) and `null` (NaN).
Python list/set cell values, which only the COMBINE strategy ever inspects,
are outside the modelled value type; the COMBINE branch for them is therefore
not represented, matching its behaviour on all scalar-valued inputs.

Fallible steps of the pipeline run in `Except MergeError`; `merge` catches
any raised error and turns it into a `MergeResult` with `success := false`
and the stringified error appended to `errors`, exactly as the Python
`try/except` in `DataMerger.merge` does. The dtype upcast `iterrows`
applies to each yielded row (ints become floats in an all-numeric row with
a float column) is modelled explicitly, since it decides which pipeline
paths can complete at all: every fuzzy match row is upcast and fails
positional indexing, while `pd.merge` rows keep their types thanks to the
object-dtype `_merge` indicator column.
-/

/-- Rational numbers in lowest terms with a positive denominator, standing
for the Python floats of the merger (similarity scores and thresholds).
They are kept as an explicit numerator/denominator pair so that every
arithmetic operation reduces inside the kernel. -/
structure Q where
  num : Int
  den : Nat
deriving DecidableEq, Repr

namespace Q

/-- Build the canonical representative of `n / d` (for `d ≠ 0`). -/
def normalize (n : Int) (d : Nat) : Q :=
  if d = 0 then ⟨0, 1⟩
  else
    let g := Nat.gcd n.natAbs d
    ⟨n / (g : Int), d / g⟩

/-- Addition of rationals. -/
def add (a b : Q) : Q :=
  normalize (a.num * (b.den : Int) + b.num * (a.den : Int)) (a.den * b.den)

/-- Division of rationals; division by zero yields zero, matching the
convention of Mathlib (Python instead raises ZeroDivisionError — the one
reachable zero divisor, an empty `key_fields` list, is modelled explicitly
at its call site). -/
def div (a b : Q) : Q :=
  let n := a.num * (b.den : Int)
  let d := b.num * (a.den : Int)
  if d = 0 then ⟨0, 1⟩
  else normalize (if d < 0 then -n else n) d.natAbs

instance : OfNat Q 0 := ⟨⟨0, 1⟩⟩

instance : OfNat Q 1 := ⟨⟨1, 1⟩⟩

instance : LE Q := ⟨fun a b => a.num * (b.den : Int) ≤ b.num * (a.den : Int)⟩

instance : LT Q := ⟨fun a b => a.num * (b.den : Int) < b.num * (a.den : Int)⟩

instance (a b : Q) : Decidable (a ≤ b) :=
  inferInstanceAs (Decidable (a.num * (b.den : Int) ≤ b.num * (a.den : Int)))

instance (a b : Q) : Decidable (a < b) :=
  inferInstanceAs (Decidable (a.num * (b.den : Int) < b.num * (a.den : Int)))

end Q

/-- ASCII lower-casing of one character, the fragment of Python
`str.lower()` the merger's inputs exercise. -/
def lowerChar (c : Char) : Char :=
  if 'A' ≤ c ∧ c ≤ 'Z' then Char.ofNat (c.toNat + 32) else c

/-- ASCII lower-casing of a string (Python `str.lower()`). -/
def lowerStr (s : String) : String := ⟨s.data.map lowerChar⟩

/-- Python `str.endswith` / pandas column-name suffix test. -/
def ends_with (s p : String) : Bool := List.isSuffixOf p.data s.data

/-- Scalar cell values of a tabular source. `null` stands for NaN/None. -/
inductive Value where
  | str : String → Value
  | int : Int → Value
  | rat : Q → Value
  | null : Value
deriving DecidableEq, Repr

namespace Value

/-- Python `pd.isna`. -/
def isna : Value → Bool
  | .null => true
  | _ => false

/-- Whether the value is a Python string. -/
def isStr : Value → Bool
  | .str _ => true
  | _ => false

/-- Python `str(value)` as used by the fuzzy scorer (`str(row_a[key])`);
NaN stringifies to "nan". Rational (float) values, which never reach the
scorer in the merger, stringify as a fraction. -/
def toStr : Value → String
  | .str s => s
  | .int n => toString n
  | .rat q => toString q.num ++ "/" ++ toString q.den
  | .null => "nan"

/-- Python `==` between cell values: NaN compares unequal to everything,
including itself; values of different types compare unequal. -/
def eqPy (a b : Value) : Bool :=
  if a.isna || b.isna then false else a == b

/-- Python `>` between cell values, on the type combinations the merger
exercises (int/int and str/str; comparisons involving NaN are false).
Mixed-type comparisons, which raise in Python, are not exercised by any
consistently typed timestamp column and are modelled as false. -/
def gtPy : Value → Value → Bool
  | .int a, .int b => a > b
  | .rat a, .rat b => decide (b < a)
  | .str a, .str b => b < a
  | _, _ => false

/-- Python `<` between cell values, with the same scope as `Value.gtPy`. -/
def ltPy : Value → Value → Bool
  | .int a, .int b => a < b
  | .rat a, .rat b => decide (a < b)
  | .str a, .str b => a < b
  | _, _ => false

end Value

/-- A pandas `Series` holding one record: ordered field-name/value pairs. -/
abbrev Series := List (String × Value)

namespace Series

/-- Label lookup, `series[field]` as an `Option`. -/
def get? : Series → String → Option Value
  | [], _ => none
  | (k, v) :: rest, f => if k = f then some v else get? rest f

/-- Label lookup with a default value. -/
def getD (s : Series) (f : String) (d : Value) : Value :=
  (s.get? f).getD d

/-- The index (field names) of the record. -/
def labels (s : Series) : List String :=
  s.map Prod.fst

/-- Pandas `Series.update`: non-NA values of `other` overwrite the values of
`s` at labels `s` already has; no new labels are added. -/
def updateWith (s other : Series) : Series :=
  s.map fun kv =>
    match other.get? kv.1 with
    | some w => if w.isna then kv else (kv.1, w)
    | none => kv

/-- Pandas `Series.combine_first`: keep the value of `s` where it is non-NA,
fall back to `other` where `s` is NA, and append the labels only `other`
has. -/
def combineFirst (s other : Series) : Series :=
  (s.map fun kv => (kv.1, if kv.2.isna then other.getD kv.1 kv.2 else kv.2)) ++
    other.filter fun kv => (s.get? kv.1).isNone

/-- Assignment `series[field] = v` for a label the series already has. -/
def setField (s : Series) (f : String) (v : Value) : Series :=
  s.map fun kv => if kv.1 = f then (kv.1, v) else kv

/-- Python `record.isna().sum()`. -/
def countNa (s : Series) : Nat :=
  s.countP fun kv => kv.2.isna

end Series

/-- A pandas DataFrame with the default positional index: named columns and
rows of values aligned positionally with the column list. -/
structure DataFrame where
  cols : List String
  rows : List (List Value)
deriving DecidableEq, Repr

/-- Value of a row at a named column (rows and columns aligned
positionally); absent columns give `null`. -/
def getVal : List String → List Value → String → Value
  | [], _, _ => .null
  | _ :: _, [], _ => .null
  | c :: cs, v :: vs, k => if c = k then v else getVal cs vs k

namespace DataFrame

/-- Well-formedness of a frame: distinct column names, every row as long as
the column list. -/
def WF (df : DataFrame) : Prop :=
  df.cols.Nodup ∧ ∀ r ∈ df.rows, r.length = df.cols.length

/-- Row `i` of the frame as a record (pandas `iterrows`/`iloc` view). -/
def rowSeries (df : DataFrame) (i : Nat) : Series :=
  df.cols.zip (df.rows.getD i [])

/-- The values stored in one named column. -/
def colValues (df : DataFrame) (k : String) : List Value :=
  df.rows.map fun r => getVal df.cols r k

/-- Whether `df[k].dtype == object`, i.e. whether pandas stores the column
with object (string) dtype: the column holds at least one Python string. -/
def colIsObject (df : DataFrame) (k : String) : Bool :=
  (df.colValues k).any Value.isStr

/-- Keep only the columns satisfying the predicate (pandas `drop(columns=…)`
complement). -/
def filterCols (df : DataFrame) (p : String → Bool) : DataFrame where
  cols := df.cols.filter p
  rows := df.rows.map fun r =>
    ((df.cols.zip r).filter fun cv => p cv.1).map Prod.snd

/-- Apply a function to every cell of one named column. -/
def mapColRow (cols : List String) (k : String) (f : Value → Value) :
    List Value → List String → List Value
  | [], _ => []
  | vs, [] => vs
  | v :: vs, c :: cs => (if c = k then f v else v) :: mapColRow cols k f vs cs

/-- Column assignment `df[k] = df[k].map f`. -/
def mapCol (df : DataFrame) (k : String) (f : Value → Value) : DataFrame where
  cols := df.cols
  rows := df.rows.map fun r => mapColRow df.cols k f r df.cols

end DataFrame

/-- Exceptions the merge pipeline can raise. -/
inductive MergeError where
  | validationError : String → MergeError
  | keyError : String → MergeError
  | indexError : String → MergeError
  | typeError : String → MergeError
  | zeroDivisionError : String → MergeError
deriving DecidableEq, Repr

/-- Python `str(e)` for each exception; `str(KeyError(k))` renders the key in
quotes. -/
def MergeError.msg : MergeError → String
  | .validationError s => s
  | .keyError k => "'" ++ k ++ "'"
  | .indexError s => s
  | .typeError s => s
  | .zeroDivisionError s => s

/-- The conflict-resolution strategies of `ConflictResolutionStrategy`. -/
inductive ConflictResolutionStrategy where
  | KEEP_NEWEST
  | KEEP_OLDEST
  | KEEP_SOURCE_A
  | KEEP_SOURCE_B
  | KEEP_MOST_COMPLETE
  | COMBINE
  | CUSTOM
deriving DecidableEq, Repr

/-- A conflicting field with its two differing values, as collected by
`_find_conflicts` (Python keeps them in a dict keyed by field name). -/
abbrev ConflictFields := List (String × Value × Value)

/-- Configuration for one merge call, mirroring `MergeConfig`.
`source_priority` is carried for completeness; the source never reads it. -/
structure MergeConfig where
  key_fields : List String
  conflict_strategy : ConflictResolutionStrategy := .KEEP_NEWEST
  timestamp_field : Option String := none
  custom_resolver : Option (Series → Series → ConflictFields → Series) := none
  case_sensitive : Bool := false
  merge_similar : Bool := true
  similarity_threshold : Q := Q.normalize 9 10
  source_priority : Option (List String) := none
  field_mappings : List (String × String) := []
  ignored_fields : List String := []

/-- One entry of `MergeResult.conflicts`. -/
structure ConflictRec where
  key_values : List (String × Value)
  fields : ConflictFields
  resolution : Series
deriving DecidableEq, Repr

/-- The `stats` dictionary of a successful merge (`int` valued: the
`source_a_only`/`source_b_only` differences can go negative). -/
structure MergeStats where
  total_records : Int
  matches_found : Int
  conflicts_resolved : Int
  source_a_only : Int
  source_b_only : Int
deriving DecidableEq, Repr

/-- Result of a merge call, mirroring `MergeResult`; `stats` is `none` when
the merge failed before populating it. -/
structure MergeResult where
  success : Bool := true
  merged_data : Option DataFrame := none
  conflicts : List ConflictRec := []
  stats : Option MergeStats := none
  errors : List String := []
  warnings : List String := []
deriving Repr

namespace DataMerger

/-- Field renaming `df.rename(columns=mappings)` applied by
`_apply_field_mappings`. -/
def apply_field_mappings (df : DataFrame) (mappings : List (String × String)) :
    DataFrame where
  cols := df.cols.map fun c => ((mappings.lookup c).getD c)
  rows := df.rows

/-- Loop body of `_validate_merge_keys`: the first key missing from source A
raises a `ValidationError` naming it and source A, then the same for source
B. -/
def validate_merge_keys (keys : List String) (dfA dfB : DataFrame) :
    Except MergeError Unit :=
  match keys with
  | [] => .ok ()
  | k :: rest =>
    if k ∉ dfA.cols then
      .error (.validationError ("Merge key '" ++ k ++ "' not found in source A"))
    else if k ∉ dfB.cols then
      .error (.validationError ("Merge key '" ++ k ++ "' not found in source B"))
    else validate_merge_keys rest dfA dfB

/-- The `.str.lower()` accessor: lower-cases strings, turns every other value
into NaN. -/
def lower_val : Value → Value
  | .str s => .str (lowerStr s)
  | _ => .null

/-- Key preparation `_prepare_merge_keys`: when the merge is
case-insensitive, each object-dtype key column of either source is
lower-cased in place, key by key. -/
def prepare_merge_keys (dfA dfB : DataFrame) (cfg : MergeConfig) :
    DataFrame × DataFrame :=
  if cfg.case_sensitive then (dfA, dfB)
  else
    cfg.key_fields.foldl
      (fun p k =>
        let a := if p.1.colIsObject k then p.1.mapCol k lower_val else p.1
        let b := if p.2.colIsObject k then p.2.mapCol k lower_val else p.2
        (a, b))
      (dfA, dfB)

/-- Fuel-driven longest-common-subsequence length; the fuel is an upper bound
on the sum of the remaining lengths, so it never runs out. -/
def lcsAux : Nat → List Char → List Char → Nat
  | 0, _, _ => 0
  | _ + 1, [], _ => 0
  | _ + 1, _ :: _, [] => 0
  | fuel + 1, a :: as, b :: bs =>
    if a = b then 1 + lcsAux fuel as bs
    else max (lcsAux fuel (a :: as) bs) (lcsAux fuel as (b :: bs))

/-- Longest common subsequence length of two strings. -/
def lcsLen (a b : String) : Nat :=
  lcsAux (a.length + b.length) a.toList b.toList

/-- Model of `rapidfuzz.fuzz.ratio(a, b) / 100`: the normalized InDel
similarity `2·lcs(a,b) / (|a| + |b|)`, which is `1` for two empty strings. -/
def fuzz_score (a b : String) : Q :=
  if a.length + b.length = 0 then 1
  else Q.normalize (2 * (lcsLen a b : Int)) (a.length + b.length)

/-- Similarity score of one key field for a pair of records, from the loop
body of `_find_similar_matches`: object-dtype key columns of source A are
scored by the string edit-distance ratio of the stringified values, all
other columns by Python equality. -/
def key_score (dfA : DataFrame) (ra rb : Series) (k : String) : Q :=
  if dfA.colIsObject k then
    fuzz_score (ra.getD k .null).toStr (rb.getD k .null).toStr
  else if (ra.getD k .null).eqPy (rb.getD k .null) then 1 else 0

/-- Average similarity of a pair of rows across the key fields
(`sum(scores) / len(scores)` in `_find_similar_matches`). -/
def avg_score (dfA dfB : DataFrame) (keys : List String) (i j : Nat) : Q :=
  ((keys.map (key_score dfA (dfA.rowSeries i) (dfB.rowSeries j))).foldl Q.add
      0).div
    ⟨(keys.length : Int), 1⟩

/-- One fuzzy match appended by `_find_similar_matches`. -/
structure MatchRec where
  idx_a : Nat
  idx_b : Nat
  similarity : Q
deriving DecidableEq, Repr

/-- The nested loops of `_find_similar_matches`: every pair of rows whose
average key similarity reaches `similarity_threshold` (inclusive) is
appended, in iteration order over A then B, with no exclusion of rows
already matched. -/
def find_similar_matches (dfA dfB : DataFrame) (cfg : MergeConfig) :
    List MatchRec :=
  ((List.range dfA.rows.length).map fun i =>
    (List.range dfB.rows.length).filterMap fun j =>
      let s := avg_score dfA dfB cfg.key_fields i j
      if cfg.similarity_threshold ≤ s then some ⟨i, j, s⟩ else none).flatten

/-- Conversion `pd.DataFrame(matches)` of the fuzzy match list: a frame with
columns idx_a/idx_b/similarity, or a frame with no columns at all when the
list is empty. -/
def matchesToDF (ms : List MatchRec) : DataFrame :=
  match ms with
  | [] => ⟨[], []⟩
  | _ =>
    ⟨["idx_a", "idx_b", "similarity"],
      ms.map fun m => [Value.int m.idx_a, Value.int m.idx_b, Value.rat m.similarity]⟩

/-- Exact matching `pd.merge(df_a, df_b, on=key_fields, how='inner',
suffixes=('_a', '_b'), indicator=True)`: one output row per key-equal pair
of rows; overlapping non-key columns get the side suffixes; the indicator
adds a `_merge` column. -/
def pd_merge (dfA dfB : DataFrame) (keys : List String) : DataFrame :=
  let overlap := fun c =>
    dfA.cols.contains c && dfB.cols.contains c && !keys.contains c
  let colsA := dfA.cols.map fun c => if overlap c then c ++ "_a" else c
  let nkB := dfB.cols.filter fun c => !keys.contains c
  let colsB := nkB.map fun c => if overlap c then c ++ "_b" else c
  { cols := colsA ++ colsB ++ ["_merge"]
    rows :=
      (dfA.rows.map fun ra =>
        dfB.rows.filterMap fun rb =>
          if keys.all fun k => getVal dfA.cols ra k == getVal dfB.cols rb k then
            some (ra ++ nkB.map (getVal dfB.cols rb) ++ [Value.str "both"])
          else none).flatten }

/-- Dispatcher `_find_matches`. A fuzzy merge with an empty `key_fields`
list divides by `len(scores) == 0` at the first scored pair, raising
`ZeroDivisionError`; that case is modelled here at the call boundary. -/
def find_matchesE (dfA dfB : DataFrame) (cfg : MergeConfig) :
    Except MergeError DataFrame :=
  if cfg.merge_similar then
    if cfg.key_fields.isEmpty && !dfA.rows.isEmpty && !dfB.rows.isEmpty then
      .error (.zeroDivisionError "division by zero")
    else .ok (matchesToDF (find_similar_matches dfA dfB cfg))
  else .ok (pd_merge dfA dfB cfg.key_fields)

/-- Conflict detection `_find_conflicts`: a field of record A also present
in record B conflicts iff both values are non-NA and unequal. Key fields
are not excluded. -/
def find_conflicts (ra rb : Series) : ConflictFields :=
  ra.filterMap fun kv =>
    match rb.get? kv.1 with
    | some vb =>
      if !kv.2.isna && !vb.isna && kv.2 ≠ vb then some (kv.1, kv.2, vb) else none
    | none => none

/-- Mandatory record field access `record[field]`, raising `KeyError` when
the label is absent. -/
def getField (s : Series) (f : String) : Except MergeError Value :=
  match s.get? f with
  | some v => .ok v
  | none => .error (.keyError f)

/-- Strategy dispatch `_apply_resolution_strategy`. The resolved record
starts as a copy of record A; strategies overwrite it with record B's
non-NA values when B wins. A falsy `timestamp_field` (absent or the empty
string) disables the newest/oldest comparison, and an absent
`custom_resolver` disables CUSTOM; both silently keep record A. -/
def apply_resolution_strategy (ra rb : Series) (conflicts : ConflictFields)
    (cfg : MergeConfig) : Except MergeError Series :=
  match cfg.conflict_strategy with
  | .KEEP_NEWEST =>
    match cfg.timestamp_field with
    | some ts =>
      if ts.isEmpty then .ok ra
      else
        match getField rb ts, getField ra ts with
        | .ok vb, .ok va =>
          if vb.gtPy va then .ok (ra.updateWith rb) else .ok ra
        | .error e, _ => .error e
        | .ok _, .error e => .error e
    | none => .ok ra
  | .KEEP_OLDEST =>
    match cfg.timestamp_field with
    | some ts =>
      if ts.isEmpty then .ok ra
      else
        match getField rb ts, getField ra ts with
        | .ok vb, .ok va =>
          if vb.ltPy va then .ok (ra.updateWith rb) else .ok ra
        | .error e, _ => .error e
        | .ok _, .error e => .error e
    | none => .ok ra
  | .KEEP_SOURCE_A => .ok ra
  | .KEEP_SOURCE_B => .ok (ra.updateWith rb)
  | .KEEP_MOST_COMPLETE =>
    if rb.countNa < ra.countNa then .ok (ra.updateWith rb) else .ok ra
  | .COMBINE =>
    .ok (conflicts.foldl
      (fun r kvv =>
        match kvv.2.1, kvv.2.2 with
        | .str x, .str y => r.setField kvv.1 (.str (x ++ " | " ++ y))
        | _, _ => r)
      ra)
  | .CUSTOM =>
    match cfg.custom_resolver with
    | some f => .ok (f ra rb conflicts)
    | none => .ok ra

/-- Error-propagating list traversal, the shape of a Python `for` loop that
may raise: the first raised error aborts the whole loop. -/
def mapE (f : α → Except MergeError β) : List α → Except MergeError (List β)
  | [] => .ok []
  | a :: as =>
    match f a with
    | .error e => .error e
    | .ok b =>
      match mapE f as with
      | .error e => .error e
      | .ok bs => .ok (b :: bs)

/-- Positional row access `df.iloc[v]` for a value drawn from the `idx_a` or
`idx_b` column of the match frame; a non-integer key (in particular the
float the iterrows upcast produces) raises `TypeError` with the pandas
message. -/
def iloc (df : DataFrame) (v : Value) : Except MergeError Series :=
  match v with
  | .int i =>
    if 0 ≤ i ∧ i.toNat < df.rows.length then .ok (df.rowSeries i.toNat)
    else .error (.indexError "single positional indexer is out-of-bounds")
  | _ =>
    .error (.typeError "Cannot index by location index with a non-integer key")

/-- The key values `{k: record_a[k] for k in config.key_fields}` recorded
with a conflict report. -/
def keyValuesOf (ra : Series) (keys : List String) :
    Except MergeError (List (String × Value)) :=
  mapE (fun k => do let v ← getField ra k; pure (k, v)) keys

/-- Loop body of `_resolve_conflicts` for one row of the match frame:
read `match['idx_a']`/`match['idx_b']` (a `KeyError` when the match frame
has no such column, as with the output of `pd.merge`), fetch both records,
detect conflicts, resolve them (recording a conflict report) or fill with
`combine_first` when there are none. -/
def resolve_one (dfA dfB : DataFrame) (cfg : MergeConfig) (m : Series) :
    Except MergeError (Series × Option ConflictRec) := do
  let ia ← getField m "idx_a"
  let ib ← getField m "idx_b"
  let ra ← iloc dfA ia
  let rb ← iloc dfB ib
  let conflicts := find_conflicts ra rb
  match conflicts with
  | [] => pure (ra.combineFirst rb, none)
  | _ => do
    let resolved ← apply_resolution_strategy ra rb conflicts cfg
    let kv ← keyValuesOf ra cfg.key_fields
    pure (resolved, some ⟨kv, conflicts, resolved⟩)

/-- Union of record indexes in first-appearance order, the column set of a
pandas frame built from a list of records. -/
def unionCols : List (List String) → List String
  | [] => []
  | cs :: rest => cs ++ (unionCols rest).filter fun c => c ∉ cs

/-- Conversion `pd.DataFrame(list_of_records)`: columns are the union of the
record indexes, missing cells are NaN; an empty record list gives a frame
with no columns. -/
def seriesListToDF (ss : List Series) : DataFrame where
  cols := unionCols (ss.map Series.labels)
  rows := ss.map fun s => (unionCols (ss.map Series.labels)).map fun c => s.getD c .null

/-- Whether a value lives in a numeric pandas dtype (int64/float64): ints,
floats, and NaN. -/
def Value.isNumLike : Value → Bool
  | .int _ => true
  | .rat _ => true
  | .null => true
  | .str _ => false

/-- Whether a value forces the common numeric dtype of a row up to float64
(floats and NaN do; ints do not). -/
def Value.isFloatLike : Value → Bool
  | .rat _ => true
  | .null => true
  | _ => false

/-- The dtype upcast `DataFrame.iterrows` applies to each yielded row: a
row whose columns are all numeric with at least one float64 column is
yielded as a float64 Series, turning its ints into floats; any
object-dtype column (strings, or the categorical `_merge` indicator) keeps
the row at object dtype and every value keeps its type. This is what turns
the int64 idx_a/idx_b of a fuzzy match row into floats — the similarity
column is float64 — so that the subsequent `df.iloc` raises TypeError. -/
def iterrow_upcast (row : List Value) : List Value :=
  if row.all Value.isNumLike && row.any Value.isFloatLike then
    row.map fun v =>
      match v with
      | .int n => .rat ⟨n, 1⟩
      | x => x
  else row

/-- Conflict resolution `_resolve_conflicts` over the whole match frame,
iterating `matches.iterrows()` (with its dtype upcast). -/
def resolve_conflicts (dfA dfB : DataFrame) (mdf : DataFrame)
    (cfg : MergeConfig) : Except MergeError (DataFrame × List ConflictRec) :=
  match mapE (resolve_one dfA dfB cfg)
      (mdf.rows.map fun r => mdf.cols.zip (iterrow_upcast r)) with
  | .error e => .error e
  | .ok items =>
    .ok (seriesListToDF (items.map Prod.fst), items.filterMap Prod.snd)

/-- Column extraction `matches['idx_a']`, a `KeyError` when absent. -/
def getCol (df : DataFrame) (k : String) : Except MergeError (List Value) :=
  if df.cols.contains k then .ok (df.colValues k) else .error (.keyError k)

/-- Row selection `df[~df.index.isin(s)]` over the default positional
index. -/
def rowsNotIn (df : DataFrame) (idxs : List Value) : List (List Value) :=
  ((List.range df.rows.length).filter fun (i : Nat) =>
      !idxs.contains (Value.int (Int.ofNat i))).map
    fun i => df.rows.getD i []

/-- Concatenation `pd.concat`: columns are unioned in first-appearance
order, cells a frame lacks are NaN, rows are stacked in order. -/
def pd_concat (dfs : List DataFrame) : DataFrame :=
  let cols := unionCols (dfs.map DataFrame.cols)
  { cols := cols
    rows := (dfs.map fun d => d.rows.map fun r => cols.map (getVal d.cols r)).flatten }

/-- Unmatched-record handling `_handle_unmatched`: both index columns of the
match frame are read (a `KeyError` when absent), unmatched rows of each
source are kept, and matched data and the two unmatched blocks are
concatenated. -/
def handle_unmatched (matched dfA dfB mdf : DataFrame) :
    Except MergeError DataFrame :=
  match getCol mdf "idx_a", getCol mdf "idx_b" with
  | .ok idxA, .ok idxB =>
    .ok (pd_concat
      [matched, ⟨dfA.cols, rowsNotIn dfA idxA⟩, ⟨dfB.cols, rowsNotIn dfB idxB⟩])
  | .error e, _ => .error e
  | .ok _, .error e => .error e

/-- Cleanup `_cleanup_merged_data`: drop the ignored fields that are
present, then drop every column whose name ends in "_a" or "_b"; the index
reset does not change the modelled frame. -/
def cleanup_merged_data (df : DataFrame) (ignored : List String) : DataFrame :=
  let df1 := ignored.foldl
    (fun d f => if d.cols.contains f then d.filterCols (fun c => c ≠ f) else d) df
  df1.filterCols fun c => !(ends_with c "_a" || ends_with c "_b")

/-- The merge pipeline of `DataMerger.merge` up to its `try` block: field
mapping, key validation, key preparation, match discovery, conflict
resolution, unmatched handling, cleanup, statistics. -/
def mergeE (sa sb : DataFrame) (cfg : MergeConfig) :
    Except MergeError MergeResult :=
  let dfA0 := apply_field_mappings sa cfg.field_mappings
  let dfB0 := apply_field_mappings sb cfg.field_mappings
  match validate_merge_keys cfg.key_fields dfA0 dfB0 with
  | .error e => .error e
  | .ok _ =>
    let p := prepare_merge_keys dfA0 dfB0 cfg
    match find_matchesE p.1 p.2 cfg with
    | .error e => .error e
    | .ok mdf =>
      match resolve_conflicts p.1 p.2 mdf cfg with
      | .error e => .error e
      | .ok resolved =>
        match handle_unmatched resolved.1 p.1 p.2 mdf with
        | .error e => .error e
        | .ok fd0 =>
          let fd := cleanup_merged_data fd0 cfg.ignored_fields
          .ok
            { success := true
              merged_data := some fd
              conflicts := resolved.2
              stats := some
                { total_records := (fd.rows.length : Int)
                  matches_found := (mdf.rows.length : Int)
                  conflicts_resolved := (resolved.2.length : Int)
                  source_a_only := (p.1.rows.length : Int) - (mdf.rows.length : Int)
                  source_b_only := (p.2.rows.length : Int) - (mdf.rows.length : Int) }
              errors := [] }

/-- Top-level `DataMerger.merge`: any raised exception is caught, recorded
in `errors`, and flips `success` to false with no merged data. -/
def merge (sa sb : DataFrame) (cfg : MergeConfig) : MergeResult :=
  match mergeE sa sb cfg with
  | .ok r => r
  | .error e =>
    { success := false, merged_data := none, conflicts := [], stats := none,
      errors := [e.msg], warnings := [] }

end DataMerger

namespace DataMerger

/-- The two prepared frames the pipeline matches on: field-mapped and
key-prepared copies of the two sources. -/
def pipelineFrames (sa sb : DataFrame) (cfg : MergeConfig) :
    DataFrame × DataFrame :=
  prepare_merge_keys (apply_field_mappings sa cfg.field_mappings)
    (apply_field_mappings sb cfg.field_mappings) cfg

/-- The fuzzy match list a merge call computes over its prepared frames. -/
def pipelineMatches (sa sb : DataFrame) (cfg : MergeConfig) : List MatchRec :=
  find_similar_matches (pipelineFrames sa sb cfg).1 (pipelineFrames sa sb cfg).2
    cfg

/-- The match frame the pipeline hands to `_resolve_conflicts` and
`_handle_unmatched`: the fuzzy match list as a frame in fuzzy mode, the
`pd.merge` result in exact mode. -/
def pipelineMatchFrame (sa sb : DataFrame) (cfg : MergeConfig) : DataFrame :=
  if cfg.merge_similar then
    matchesToDF (find_similar_matches (pipelineFrames sa sb cfg).1
      (pipelineFrames sa sb cfg).2 cfg)
  else
    pd_merge (pipelineFrames sa sb cfg).1 (pipelineFrames sa sb cfg).2
      cfg.key_fields

/-- How many of the row positions `0 … n-1` occur in the given index column
(the membership test `df.index.isin(set(matches[...]))` of
`_handle_unmatched`). -/
def matched_count (idxs : List Value) (n : Nat) : Nat :=
  (List.range n).countP fun i => idxs.contains (Value.int (Int.ofNat i))

/-- The `idx_a` column of a fuzzy match list. -/
def idxACol (ms : List MatchRec) : List Value :=
  ms.map fun m => Value.int (Int.ofNat m.idx_a)

/-- The `idx_b` column of a fuzzy match list. -/
def idxBCol (ms : List MatchRec) : List Value :=
  ms.map fun m => Value.int (Int.ofNat m.idx_b)

end DataMerger

section HelperLemmas

open DataMerger

theorem countP_flatten (p : α → Bool) (L : List (List α)) :
    L.flatten.countP p = (L.map (List.countP p)).sum := by
  induction L with
  | nil => simp
  | cons h t ih => simp [List.countP_append, ih]

theorem countP_bnot_add (p : α → Bool) (l : List α) :
    l.countP (fun a => !p a) + l.countP p = l.length := by
  induction l with
  | nil => simp
  | cons a t ih =>
    by_cases h : p a <;> simp [List.countP_cons, h] <;> omega

theorem sum_map_range_ite (n i c : Nat) :
    ((List.range n).map fun x => if x = i then c else 0).sum =
      if i < n then c else 0 := by
  induction n with
  | zero => simp
  | succ m ih =>
    rw [List.range_succ, List.map_append, List.sum_append, ih]
    by_cases h : i < m
    · have : ¬ m = i := by omega
      simp [h, this, Nat.lt_succ_of_lt h]
    · by_cases h2 : m = i
      · subst h2
        simp [h, Nat.lt_succ_self]
      · have : ¬ i < m + 1 := by omega
        simp [h, h2, this]

theorem mapE_ok_length (f : α → Except MergeError β) :
    ∀ l l', mapE f l = .ok l' → l'.length = l.length := by
  intro l
  induction l with
  | nil => intro l' h; simp [mapE] at h; simp [← h]
  | cons a as ih =>
    intro l' h
    rw [mapE] at h
    cases hf : f a with
    | error e => rw [hf] at h; exact absurd h (by simp)
    | ok b =>
      rw [hf] at h
      cases hm : mapE f as with
      | error e => rw [hm] at h; exact absurd h (by simp)
      | ok bs =>
        rw [hm] at h
        cases h
        simp [ih bs hm]

theorem seriesListToDF_rows_length (ss : List Series) :
    (seriesListToDF ss).rows.length = ss.length := by
  simp [seriesListToDF]

theorem resolve_conflicts_ok_length (dfA dfB mdf : DataFrame)
    (cfg : MergeConfig) (pr : DataFrame × List ConflictRec)
    (h : resolve_conflicts dfA dfB mdf cfg = .ok pr) :
    pr.1.rows.length = mdf.rows.length := by
  rw [resolve_conflicts] at h
  cases hm : mapE (resolve_one dfA dfB cfg)
      (mdf.rows.map fun r => mdf.cols.zip (iterrow_upcast r)) with
  | error e => rw [hm] at h; exact absurd h (by simp)
  | ok items =>
    rw [hm] at h
    cases h
    have := mapE_ok_length _ _ _ hm
    simp [seriesListToDF_rows_length, this]

theorem pd_concat_rows_length (dfs : List DataFrame) :
    (pd_concat dfs).rows.length = (dfs.map fun d => d.rows.length).sum := by
  simp [pd_concat, List.map_map, Function.comp_def]

theorem filterCols_rows_length (df : DataFrame) (p : String → Bool) :
    (df.filterCols p).rows.length = df.rows.length := by
  simp [DataFrame.filterCols]

theorem cleanup_rows_length (df : DataFrame) (ignored : List String) :
    (cleanup_merged_data df ignored).rows.length = df.rows.length := by
  rw [cleanup_merged_data]
  rw [filterCols_rows_length]
  induction ignored generalizing df with
  | nil => rfl
  | cons f t ih =>
    rw [List.foldl_cons]
    rw [ih]
    split <;> simp [filterCols_rows_length]

theorem countP_le_length (p : α → Bool) (l : List α) : l.countP p ≤ l.length :=
  List.countP_le_length p

theorem rowsNotIn_length (df : DataFrame) (idxs : List Value) :
    (rowsNotIn df idxs).length =
      df.rows.length -
        (List.range df.rows.length).countP
          (fun i => idxs.contains (Value.int (Int.ofNat i))) := by
  rw [rowsNotIn, List.length_map, ← List.countP_eq_length_filter]
  have h1 := countP_bnot_add
    (fun i => idxs.contains (Value.int (Int.ofNat i)))
    (List.range df.rows.length)
  simp only [List.length_range] at h1
  omega

theorem mapCol_rows_length (df : DataFrame) (k : String) (f : Value → Value) :
    (df.mapCol k f).rows.length = df.rows.length := by
  simp [DataFrame.mapCol]

theorem prepare_rows_length (dfA dfB : DataFrame) (cfg : MergeConfig) :
    (prepare_merge_keys dfA dfB cfg).1.rows.length = dfA.rows.length ∧
      (prepare_merge_keys dfA dfB cfg).2.rows.length = dfB.rows.length := by
  rw [prepare_merge_keys]
  by_cases h : cfg.case_sensitive
  · simp [h]
  · simp only [h, if_false]
    generalize hp : (dfA, dfB) = pr
    have hstart : pr.1.rows.length = dfA.rows.length ∧
        pr.2.rows.length = dfB.rows.length := by rw [← hp]; exact ⟨rfl, rfl⟩
    clear hp
    induction cfg.key_fields generalizing pr with
    | nil => simpa using hstart
    | cons k t ih =>
      rw [List.foldl_cons]
      apply ih
      constructor
      · by_cases h1 : pr.1.colIsObject k <;>
          simp [h1, mapCol_rows_length, hstart.1]
      · by_cases h2 : pr.2.colIsObject k <;>
          simp [h2, mapCol_rows_length, hstart.2]

theorem apply_field_mappings_rows (df : DataFrame)
    (m : List (String × String)) :
    (apply_field_mappings df m).rows = df.rows := rfl

theorem matchesToDF_rows_length (ms : List MatchRec) :
    (matchesToDF ms).rows.length = ms.length := by
  cases ms <;> simp [matchesToDF]

end HelperLemmas

section HelperLemmas2

open DataMerger

theorem matchesToDF_colValues_a (m : MatchRec) (tl : List MatchRec) :
    (matchesToDF (m :: tl)).colValues "idx_a" = idxACol (m :: tl) := by
  simp only [matchesToDF, DataFrame.colValues, List.map_map, idxACol]
  rfl

theorem matchesToDF_colValues_b (m : MatchRec) (tl : List MatchRec) :
    (matchesToDF (m :: tl)).colValues "idx_b" = idxBCol (m :: tl) := by
  simp only [matchesToDF, DataFrame.colValues, List.map_map, idxBCol]
  rfl

theorem getCol_matchesToDF_nil (k : String) :
    getCol (matchesToDF []) k = .error (.keyError k) := rfl

theorem getCol_matchesToDF_cons_a (m : MatchRec) (tl : List MatchRec) :
    getCol (matchesToDF (m :: tl)) "idx_a" = .ok (idxACol (m :: tl)) := by
  rw [getCol]
  rw [if_pos (by simp [matchesToDF])]
  rw [matchesToDF_colValues_a]

theorem getCol_matchesToDF_cons_b (m : MatchRec) (tl : List MatchRec) :
    getCol (matchesToDF (m :: tl)) "idx_b" = .ok (idxBCol (m :: tl)) := by
  rw [getCol]
  rw [if_pos (by simp [matchesToDF])]
  rw [matchesToDF_colValues_b]

theorem cleanup_cols_no_suffix (df : DataFrame) (ig : List String) (c : String)
    (hc : c ∈ (cleanup_merged_data df ig).cols) :
    ends_with c "_a" = false ∧ ends_with c "_b" = false := by
  rw [cleanup_merged_data] at hc
  simp only [DataFrame.filterCols, List.mem_filter] at hc
  have h2 := hc.2
  simp only [Bool.not_eq_true', Bool.or_eq_false_iff] at h2
  exact h2

theorem find_matchesE_ok_eq (dfA dfB : DataFrame) (cfg : MergeConfig)
    (mdf : DataFrame) (h : find_matchesE dfA dfB cfg = .ok mdf) :
    (if cfg.merge_similar then matchesToDF (find_similar_matches dfA dfB cfg)
      else pd_merge dfA dfB cfg.key_fields) = mdf := by
  unfold find_matchesE at h
  by_cases hm : cfg.merge_similar = true
  · rw [if_pos hm] at h
    rw [if_pos hm]
    by_cases hg : (cfg.key_fields.isEmpty && !dfA.rows.isEmpty &&
        !dfB.rows.isEmpty) = true
    · rw [if_pos hg] at h
      exact absurd h (by simp)
    · rw [if_neg hg] at h
      rw [Except.ok.injEq] at h
      exact h
  · rw [if_neg hm] at h
    rw [if_neg hm]
    rw [Except.ok.injEq] at h
    exact h

end HelperLemmas2

namespace DataMerger

/-- Source A for the exact-mode probe: one record with id 1. -/
def exA1 : DataFrame := ⟨["id"], [[.int 1]]⟩

/-- Source B for the exact-mode probe: one record with the same id. -/
def exB1 : DataFrame := ⟨["id"], [[.int 1]]⟩

/-- Exact-mode configuration joining on the id column. -/
def cfgExact1 : MergeConfig := { key_fields := ["id"], merge_similar := false }

/-- Non-empty source A for the empty-source probe. -/
def exA2 : DataFrame := ⟨["id", "val"], [[.int 1, .str "x"]]⟩

/-- Empty source B that still declares the id column. -/
def exB2 : DataFrame := ⟨["id"], []⟩

/-- Fuzzy-mode configuration for the empty-source probe. -/
def cfgFuzzy2 : MergeConfig := { key_fields := ["id"], merge_similar := true }

/-- Exact-mode configuration for the empty-source probe. -/
def cfgExact2 : MergeConfig := { key_fields := ["id"], merge_similar := false }

/-- Record A of the strategy-correctness scenario. -/
def recA6 : Series := [("id", .int 1), ("val", .str "x"), ("ts", .int 10)]

/-- Record B of the strategy-correctness scenario. -/
def recB6 : Series := [("id", .int 1), ("val", .str "y"), ("ts", .int 20)]

/-- Configuration of the strategy-correctness scenario, parametrized by the
strategy under test. -/
def cfgStrat (s : ConflictResolutionStrategy) : MergeConfig :=
  { key_fields := ["id"], conflict_strategy := s,
    timestamp_field := some "ts", merge_similar := false }

/-- C1. The spec says an exact-mode merge on shared key columns succeeds and
matches are the inner join; the code instead reads the nonexistent idx_a
column of the `pd.merge` result inside `_resolve_conflicts`, so every
exact-mode call raises `KeyError('idx_a')` and returns `success=False` with
no merged data — here evaluated at the simplest matching pair. -/
theorem exact_mode_merge_keyerror :
    (merge exA1 exB1 cfgExact1).success = false ∧
    (merge exA1 exB1 cfgExact1).errors = ["'idx_a'"] ∧
    (merge exA1 exB1 cfgExact1).merged_data = none ∧
    mergeE exA1 exB1 cfgExact1 = .error (.keyError "idx_a") :=
  ⟨rfl, rfl, rfl, rfl⟩

/-- C2. The spec says merging a non-empty A against an empty B succeeds with
a copy of A and `source_a_only = len(A)`; the code instead fails in
`_handle_unmatched`: with zero matches the match frame has no idx_a column
(empty `pd.DataFrame` in fuzzy mode, the `pd.merge` result in exact mode),
so `matches['idx_a']` raises `KeyError('idx_a')` and the merge returns
`success=False` with no merged data and no stats, in either mode. -/
theorem empty_source_merge_keyerror :
    (merge exA2 exB2 cfgFuzzy2).success = false ∧
    (merge exA2 exB2 cfgFuzzy2).errors = ["'idx_a'"] ∧
    (merge exA2 exB2 cfgFuzzy2).merged_data = none ∧
    (merge exA2 exB2 cfgFuzzy2).stats = none ∧
    (merge exA2 exB2 cfgExact2).success = false ∧
    (merge exA2 exB2 cfgExact2).errors = ["'idx_a'"] ∧
    (merge exA2 exB2 cfgExact2).merged_data = none ∧
    (merge exA2 exB2 cfgExact2).stats = none :=
  ⟨rfl, rfl, rfl, rfl, rfl, rfl, rfl, rfl⟩

/-- C6. Strategy correctness on the records A = (id 1, val "x", ts 10) and
B = (id 1, val "y", ts 20) with timestamp field ts, feeding
`_apply_resolution_strategy` the conflict set `_find_conflicts` computes
for this pair (val, and also ts, both differ): the resolved val is "y"
under KEEP_NEWEST, "x" under KEEP_OLDEST, "x" under KEEP_SOURCE_A, "y"
under KEEP_SOURCE_B, and "x | y" under COMBINE. -/
theorem strategy_resolution_values :
    (apply_resolution_strategy recA6 recB6 (find_conflicts recA6 recB6)
        (cfgStrat .KEEP_NEWEST)).map (fun r => r.get? "val") =
      .ok (some (.str "y")) ∧
    (apply_resolution_strategy recA6 recB6 (find_conflicts recA6 recB6)
        (cfgStrat .KEEP_OLDEST)).map (fun r => r.get? "val") =
      .ok (some (.str "x")) ∧
    (apply_resolution_strategy recA6 recB6 (find_conflicts recA6 recB6)
        (cfgStrat .KEEP_SOURCE_A)).map (fun r => r.get? "val") =
      .ok (some (.str "x")) ∧
    (apply_resolution_strategy recA6 recB6 (find_conflicts recA6 recB6)
        (cfgStrat .KEEP_SOURCE_B)).map (fun r => r.get? "val") =
      .ok (some (.str "y")) ∧
    (apply_resolution_strategy recA6 recB6 (find_conflicts recA6 recB6)
        (cfgStrat .COMBINE)).map (fun r => r.get? "val") =
      .ok (some (.str "x | y")) :=
  ⟨rfl, rfl, rfl, rfl, rfl⟩

end DataMerger

namespace DataMerger

theorem validate_missing (keys : List String) (dfA dfB : DataFrame)
    (h : ∃ k ∈ keys, k ∉ dfA.cols ∨ k ∉ dfB.cols) :
    ∃ k ∈ keys,
      (k ∉ dfA.cols ∧ validate_merge_keys keys dfA dfB =
        .error (.validationError
          ("Merge key '" ++ k ++ "' not found in source A"))) ∨
      (k ∈ dfA.cols ∧ k ∉ dfB.cols ∧ validate_merge_keys keys dfA dfB =
        .error (.validationError
          ("Merge key '" ++ k ++ "' not found in source B"))) := by
  induction keys with
  | nil =>
    obtain ⟨k, hk, _⟩ := h
    exact absurd hk (List.not_mem_nil k)
  | cons k0 t ih =>
    by_cases hA : k0 ∈ dfA.cols
    · by_cases hB : k0 ∈ dfB.cols
      · obtain ⟨k, hk, hor⟩ := h
        rcases List.mem_cons.mp hk with hk0 | hmem
        · subst hk0
          rcases hor with h1 | h1
          · exact absurd hA h1
          · exact absurd hB h1
        · obtain ⟨k', hk', hres⟩ := ih ⟨k, hmem, hor⟩
          refine ⟨k', List.mem_cons_of_mem _ hk', ?_⟩
          rw [validate_merge_keys, if_neg (not_not.mpr hA),
            if_neg (not_not.mpr hB)]
          exact hres
      · refine ⟨k0, List.mem_cons_self k0 t, Or.inr ⟨hA, hB, ?_⟩⟩
        rw [validate_merge_keys, if_neg (not_not.mpr hA), if_pos hB]
    · refine ⟨k0, List.mem_cons_self k0 t, Or.inl ⟨hA, ?_⟩⟩
      rw [validate_merge_keys, if_pos hA]

/-- C8. When some key field is absent from either field-mapped source, the
merge fails at `_validate_merge_keys`: `success=False`, no merged data, and
the single recorded error is the message of a `ValidationError` naming a
missing key field and the side it is missing from (source A is checked
first for each key, in key order). -/
theorem missing_key_validation (sa sb : DataFrame) (cfg : MergeConfig)
    (h : ∃ k ∈ cfg.key_fields,
        k ∉ (apply_field_mappings sa cfg.field_mappings).cols ∨
          k ∉ (apply_field_mappings sb cfg.field_mappings).cols) :
    (merge sa sb cfg).success = false ∧
    (merge sa sb cfg).merged_data = none ∧
    ∃ k ∈ cfg.key_fields, ∃ m : String,
      mergeE sa sb cfg = .error (.validationError m) ∧
      (merge sa sb cfg).errors = [m] ∧
      ((k ∉ (apply_field_mappings sa cfg.field_mappings).cols ∧
          m = "Merge key '" ++ k ++ "' not found in source A") ∨
        (k ∈ (apply_field_mappings sa cfg.field_mappings).cols ∧
          k ∉ (apply_field_mappings sb cfg.field_mappings).cols ∧
          m = "Merge key '" ++ k ++ "' not found in source B")) := by
  obtain ⟨k, hk, hres⟩ := validate_missing _ _ _ h
  rcases hres with ⟨hA, hv⟩ | ⟨hA, hB, hv⟩
  · have hE : mergeE sa sb cfg =
        .error (.validationError ("Merge key '" ++ k ++ "' not found in source A")) := by
      rw [mergeE, hv]
    rw [merge, hE]
    exact ⟨rfl, rfl, k, hk, _, rfl, rfl, Or.inl ⟨hA, rfl⟩⟩
  · have hE : mergeE sa sb cfg =
        .error (.validationError ("Merge key '" ++ k ++ "' not found in source B")) := by
      rw [mergeE, hv]
    rw [merge, hE]
    exact ⟨rfl, rfl, k, hk, _, rfl, rfl, Or.inr ⟨hA, hB, rfl⟩⟩

/-- Source B of the missing-key probe: lacks the id key column. -/
def exB8 : DataFrame := ⟨["other"], [[.int 2]]⟩

/-- Witness for C8: merging a source with an id column against one without
it fails with the ValidationError message naming id and source B. -/
theorem missing_key_validation_witness :
    (merge exA2 exB8 cfgFuzzy2).success = false ∧
    (merge exA2 exB8 cfgFuzzy2).merged_data = none ∧
    (merge exA2 exB8 cfgFuzzy2).errors =
      ["Merge key 'id' not found in source B"] :=
  ⟨(missing_key_validation exA2 exB8 cfgFuzzy2
      ⟨"id", by decide, Or.inr (by decide)⟩).1,
   (missing_key_validation exA2 exB8 cfgFuzzy2
      ⟨"id", by decide, Or.inr (by decide)⟩).2.1,
   rfl⟩

end DataMerger

namespace DataMerger

/-- C10. On every successful merge, the cleanup step has removed every
column whose name ends in "_a" or "_b" from the merged data — the drop in
`_cleanup_merged_data` is by name suffix only, so it removes
caller-supplied columns with such names just as it removes join
artifacts. -/
theorem merged_no_suffix_cols (sa sb : DataFrame) (cfg : MergeConfig)
    (hs : (merge sa sb cfg).success = true) :
    ∀ df, (merge sa sb cfg).merged_data = some df →
      ∀ c ∈ df.cols, ends_with c "_a" = false ∧ ends_with c "_b" = false := by
  cases hE : mergeE sa sb cfg with
  | error e =>
    rw [merge, hE] at hs
    exact absurd hs (by simp)
  | ok r =>
    have hr : merge sa sb cfg = r := by rw [merge, hE]
    simp only [mergeE] at hE
    split at hE
    · exact absurd hE (by simp)
    · split at hE
      · exact absurd hE (by simp)
      · split at hE
        · exact absurd hE (by simp)
        · split at hE
          · exact absurd hE (by simp)
          · injection hE with h
            subst h
            rw [hr]
            intro df hdf c hc
            rw [Option.some_inj] at hdf
            subst hdf
            exact cleanup_cols_no_suffix _ _ c hc

/-- Caller source A whose own columns are named idx_a and idx_b. With such
column names the pd.merge output itself carries the idx_a/idx_b labels that
`_resolve_conflicts` reads, and its rows stay at object dtype (the
categorical `_merge` indicator blocks the float upcast of iterrows), so an
exact-mode merge can actually complete - the one completing path of the
pipeline. Both rows carry the key values (0, 0). -/
def exC3A : DataFrame := ⟨["idx_a", "idx_b"], [[.int 0, .int 0], [.int 0, .int 0]]⟩

/-- Caller source B of the many-to-many probe, identical to source A. -/
def exC3B : DataFrame := ⟨["idx_a", "idx_b"], [[.int 0, .int 0], [.int 0, .int 0]]⟩

/-- Exact-mode configuration joining on the caller's idx_a/idx_b columns. -/
def cfgC3 : MergeConfig :=
  { key_fields := ["idx_a", "idx_b"], merge_similar := false }

/-- Counterexample to C3: a successful exact-mode merge (caller columns
named idx_a/idx_b, all four key pairs equal) in which the inner join is
many-to-many: 2 records per side give 4 join rows and 6 output records,
and the returned stats read total_records 6, matches_found 4,
source_a_only -2, source_b_only -2, on which the claimed conservation law
evaluates to false. -/
theorem stats_conservation_cex :
    (merge exC3A exC3B cfgC3).success = true ∧
    (merge exC3A exC3B cfgC3).stats = some ⟨6, 4, 0, -2, -2⟩ ∧
    ((merge exC3A exC3B cfgC3).stats).map
        (fun st =>
          st.total_records ==
            st.matches_found + st.source_a_only + st.source_b_only) =
      some false :=
  ⟨by decide, by decide, by decide⟩

/-- C3 (amended). For every merge that returns success=true, total_records
equals matches_found plus the number of A-rows whose positional index does
not occur in the match frame's idx_a column plus the number of B-rows
whose positional index does not occur in its idx_b column. The reported
source_a_only/source_b_only subtract the full match count instead, so the
claimed identity holds only when the match count equals each side's count
of matched rows - which the many-to-many inner join violates. -/
theorem merge_stats_total (sa sb : DataFrame) (cfg : MergeConfig)
    (hs : (merge sa sb cfg).success = true) :
    ((merge sa sb cfg).stats).map
        (fun st => (st.total_records, st.matches_found)) =
      some
        (((pipelineMatchFrame sa sb cfg).rows.length : Int) +
            ((sa.rows.length : Int) -
              (matched_count
                  ((pipelineMatchFrame sa sb cfg).colValues "idx_a")
                  sa.rows.length : Int)) +
            ((sb.rows.length : Int) -
              (matched_count
                  ((pipelineMatchFrame sa sb cfg).colValues "idx_b")
                  sb.rows.length : Int)),
          ((pipelineMatchFrame sa sb cfg).rows.length : Int)) := by
  cases hE : mergeE sa sb cfg with
  | error e =>
    rw [merge, hE] at hs
    exact absurd hs (by simp)
  | ok r =>
    have hr : merge sa sb cfg = r := by rw [merge, hE]
    rw [hr]
    simp only [mergeE] at hE
    cases hv : validate_merge_keys cfg.key_fields
        (apply_field_mappings sa cfg.field_mappings)
        (apply_field_mappings sb cfg.field_mappings) with
    | error e => rw [hv] at hE; exact absurd hE (by simp)
    | ok u =>
      rw [hv] at hE
      cases hfm : find_matchesE
          (prepare_merge_keys (apply_field_mappings sa cfg.field_mappings)
            (apply_field_mappings sb cfg.field_mappings) cfg).1
          (prepare_merge_keys (apply_field_mappings sa cfg.field_mappings)
            (apply_field_mappings sb cfg.field_mappings) cfg).2 cfg with
      | error e => rw [hfm] at hE; exact absurd hE (by simp)
      | ok mdf =>
        rw [hfm] at hE
        simp only [] at hE
        have hpmf : pipelineMatchFrame sa sb cfg = mdf := by
          unfold pipelineMatchFrame pipelineFrames
          exact find_matchesE_ok_eq _ _ _ _ hfm
        rw [hpmf]
        cases hrc : resolve_conflicts
            (prepare_merge_keys (apply_field_mappings sa cfg.field_mappings)
              (apply_field_mappings sb cfg.field_mappings) cfg).1
            (prepare_merge_keys (apply_field_mappings sa cfg.field_mappings)
              (apply_field_mappings sb cfg.field_mappings) cfg).2
            mdf cfg with
        | error e => rw [hrc] at hE; exact absurd hE (by simp)
        | ok pr =>
          rw [hrc] at hE
          simp only [] at hE
          cases hhu : handle_unmatched pr.1
              (prepare_merge_keys (apply_field_mappings sa cfg.field_mappings)
                (apply_field_mappings sb cfg.field_mappings) cfg).1
              (prepare_merge_keys (apply_field_mappings sa cfg.field_mappings)
                (apply_field_mappings sb cfg.field_mappings) cfg).2
              mdf with
          | error e => rw [hhu] at hE; exact absurd hE (by simp)
          | ok fd0 =>
            rw [hhu] at hE
            simp only [] at hE
            rw [Except.ok.injEq] at hE
            subst hE
            rw [handle_unmatched] at hhu
            cases hca : getCol mdf "idx_a" with
            | error e => rw [hca] at hhu; exact absurd hhu (by simp)
            | ok idxA =>
              rw [hca] at hhu
              cases hcb : getCol mdf "idx_b" with
              | error e => rw [hcb] at hhu; exact absurd hhu (by simp)
              | ok idxB =>
                rw [hcb] at hhu
                simp only [] at hhu
                rw [Except.ok.injEq] at hhu
                subst hhu
                have hidxA : idxA = mdf.colValues "idx_a" := by
                  rw [getCol] at hca
                  by_cases hc : mdf.cols.contains "idx_a" = true
                  · rw [if_pos hc] at hca
                    rw [Except.ok.injEq] at hca
                    exact hca.symm
                  · rw [if_neg hc] at hca
                    exact absurd hca (by simp)
                have hidxB : idxB = mdf.colValues "idx_b" := by
                  rw [getCol] at hcb
                  by_cases hc : mdf.cols.contains "idx_b" = true
                  · rw [if_pos hc] at hcb
                    rw [Except.ok.injEq] at hcb
                    exact hcb.symm
                  · rw [if_neg hc] at hcb
                    exact absurd hcb (by simp)
                have hlen1 : pr.1.rows.length = mdf.rows.length :=
                  resolve_conflicts_ok_length _ _ _ _ _ hrc
                have hlenA : (prepare_merge_keys
                    (apply_field_mappings sa cfg.field_mappings)
                    (apply_field_mappings sb cfg.field_mappings) cfg).1.rows.length
                      = sa.rows.length :=
                  (prepare_rows_length _ _ _).1
                have hlenB : (prepare_merge_keys
                    (apply_field_mappings sa cfg.field_mappings)
                    (apply_field_mappings sb cfg.field_mappings) cfg).2.rows.length
                      = sb.rows.length :=
                  (prepare_rows_length _ _ _).2
                simp only [Option.map]
                rw [Option.some.injEq, Prod.mk.injEq]
                constructor
                · rw [cleanup_rows_length, pd_concat_rows_length]
                  simp only [List.map_cons, List.map_nil, List.sum_cons,
                    List.sum_nil]
                  rw [rowsNotIn_length, rowsNotIn_length]
                  rw [hidxA, hidxB]
                  have hcA := countP_le_length
                    (fun i => (mdf.colValues "idx_a").contains
                      (Value.int (Int.ofNat i)))
                    (List.range (prepare_merge_keys
                      (apply_field_mappings sa cfg.field_mappings)
                      (apply_field_mappings sb cfg.field_mappings) cfg).1.rows.length)
                  have hcB := countP_le_length
                    (fun i => (mdf.colValues "idx_b").contains
                      (Value.int (Int.ofNat i)))
                    (List.range (prepare_merge_keys
                      (apply_field_mappings sa cfg.field_mappings)
                      (apply_field_mappings sb cfg.field_mappings) cfg).2.rows.length)
                  simp only [List.length_range] at hcA hcB
                  unfold matched_count
                  rw [← hlenA, ← hlenB]
                  omega
                · rfl

/-- Witness for C3 (amended): on the many-to-many probe the theorem
instantiates to total_records 6 and matches_found 4 - the 4 join rows plus
1 unmatched row on each side (only positional index 0 occurs in the idx
columns). -/
theorem merge_stats_total_witness :
    (merge exC3A exC3B cfgC3).success = true ∧
    ((merge exC3A exC3B cfgC3).stats).map
        (fun st => (st.total_records, st.matches_found)) = some (6, 4) :=
  ⟨by decide,
   (merge_stats_total exC3A exC3B cfgC3 (by decide)).trans (by decide)⟩

/-- Counterexample to C4: in the same successful exact-mode merge, the
inner join pairs each of the 2 A-records with both key-equal B-records,
yielding 4 reported matches and 6 merged records from 2 + 2 input records
- impossible if every record participated in at most one match and
contributed to at most one merged record. -/
theorem match_multiplicity_cex :
    (merge exC3A exC3B cfgC3).success = true ∧
    exC3A.rows.length = 2 ∧ exC3B.rows.length = 2 ∧
    ((merge exC3A exC3B cfgC3).stats).map (fun st => st.matches_found) =
      some 4 ∧
    ((merge exC3A exC3B cfgC3).merged_data).map (fun df => df.rows.length) =
      some 6 :=
  ⟨by decide, by decide, by decide, by decide, by decide⟩

/-- C4 (amended). The fuzzy matcher performs no tie-breaking: row i of
source A is reported in exactly as many matches as there are B-rows whose
average key similarity with it reaches the threshold, which can exceed
one; in exact mode no merge ever completes (C1). -/
theorem fuzzy_match_countP (dfA dfB : DataFrame) (cfg : MergeConfig)
    (i : Nat) :
    ((find_similar_matches dfA dfB cfg).countP fun m => m.idx_a == i) =
      if i < dfA.rows.length then
        (List.range dfB.rows.length).countP fun j =>
          decide (cfg.similarity_threshold ≤
            avg_score dfA dfB cfg.key_fields i j)
      else 0 := by
  unfold find_similar_matches
  rw [countP_flatten, List.map_map]
  have hblock : ∀ i' ∈ List.range dfA.rows.length,
      ((List.countP fun (m : MatchRec) => m.idx_a == i) ∘ fun i'' =>
          List.filterMap
            (fun j =>
              let s := avg_score dfA dfB cfg.key_fields i'' j
              if cfg.similarity_threshold ≤ s then
                some { idx_a := i'', idx_b := j, similarity := s }
              else none)
            (List.range dfB.rows.length)) i' =
        if i' = i then
          (List.range dfB.rows.length).countP fun j =>
            decide (cfg.similarity_threshold ≤
              avg_score dfA dfB cfg.key_fields i j)
        else 0 := by
    intro i' _
    simp only [Function.comp_apply]
    rw [List.countP_filterMap]
    by_cases hii : i' = i
    · subst hii
      rw [if_pos rfl]
      apply List.countP_congr
      intro j _
      by_cases hc : cfg.similarity_threshold ≤
          avg_score dfA dfB cfg.key_fields i' j
      · simp [hc]
      · simp [hc]
    · rw [if_neg hii]
      rw [List.countP_eq_zero]
      intro j _
      by_cases hc : cfg.similarity_threshold ≤
          avg_score dfA dfB cfg.key_fields i' j
      · simp [hc, hii]
      · simp [hc]
  rw [List.map_congr_left hblock]
  rw [sum_map_range_ite]

end DataMerger

namespace DataMerger

/-- C7. In fuzzy mode every pair of rows is scored by `avg_score` — the
average over the key fields of the per-field similarity, the normalized
string edit-distance ratio of `fuzz_score` for object-dtype key columns and
exact (Python) equality scored 1/0 otherwise — and the pair is reported as
a match exactly when that average reaches `similarity_threshold`; the
comparison is `≥`, so the boundary is inclusive. -/
theorem fuzzy_match_mem_iff (dfA dfB : DataFrame) (cfg : MergeConfig)
    (i j : Nat) (hk : cfg.key_fields ≠ []) :
    ((⟨i, j, avg_score dfA dfB cfg.key_fields i j⟩ : MatchRec) ∈
        find_similar_matches dfA dfB cfg) ↔
      i < dfA.rows.length ∧ j < dfB.rows.length ∧
        cfg.similarity_threshold ≤ avg_score dfA dfB cfg.key_fields i j := by
  unfold find_similar_matches
  rw [List.mem_flatten]
  constructor
  · rintro ⟨l, hl, hml⟩
    rw [List.mem_map] at hl
    obtain ⟨i', hi', rfl⟩ := hl
    rw [List.mem_filterMap] at hml
    obtain ⟨j', hj', hj⟩ := hml
    by_cases hc : cfg.similarity_threshold ≤
        avg_score dfA dfB cfg.key_fields i' j'
    · simp only [if_pos hc] at hj
      rw [Option.some.injEq] at hj
      rw [MatchRec.mk.injEq] at hj
      obtain ⟨h1, h2, h3⟩ := hj
      subst h1
      subst h2
      exact ⟨List.mem_range.mp hi', List.mem_range.mp hj', hc⟩
    · simp only [if_neg hc] at hj
      exact absurd hj (by simp)
  · rintro ⟨hi, hj, hc⟩
    refine ⟨_, List.mem_map.mpr ⟨i, List.mem_range.mpr hi, rfl⟩, ?_⟩
    rw [List.mem_filterMap]
    exact ⟨j, List.mem_range.mpr hj, by simp only [if_pos hc]⟩

/-- Source A of the threshold-boundary probe. -/
def exA7 : DataFrame := ⟨["k"], [[.str "ab"]]⟩

/-- Source B of the threshold-boundary probe: key similarity with A is
exactly one half. -/
def exB7 : DataFrame := ⟨["k"], [[.str "ax"]]⟩

/-- Threshold equal to the pair's similarity. -/
def cfgEx7 : MergeConfig := { key_fields := ["k"], similarity_threshold := ⟨1, 2⟩ }

/-- Threshold just above the pair's similarity. -/
def cfgEx7b : MergeConfig :=
  { key_fields := ["k"], similarity_threshold := ⟨51, 100⟩ }

/-- Witness for C7: with average similarity exactly 1/2, the pair is a
match at threshold 1/2 (inclusive boundary) and the match list is empty at
threshold 51/100. -/
theorem fuzzy_match_mem_iff_witness :
    ((⟨0, 0, avg_score exA7 exB7 ["k"] 0 0⟩ : MatchRec) ∈
        find_similar_matches exA7 exB7 cfgEx7) ∧
    find_similar_matches exA7 exB7 cfgEx7b = [] ∧
    avg_score exA7 exB7 ["k"] 0 0 = ⟨1, 2⟩ :=
  ⟨(fuzzy_match_mem_iff exA7 exB7 cfgEx7 0 0 (by decide)).mpr
      ⟨by decide, by decide, by decide⟩,
   by decide, by decide⟩

end DataMerger

namespace DataMerger

/-- Source A of the key-conflict probe: caller columns named idx_a/idx_b
(the completing exact-mode shape). Row 0 carries keys (1, 0), row 1 keys
(0, 0). -/
def exC5A : DataFrame :=
  ⟨["idx_a", "idx_b"], [[.int 1, .int 0], [.int 0, .int 0]]⟩

/-- Source B of the key-conflict probe: row 0 carries keys (1, 0), row 1
keys (9, 9), so exactly one pair joins. -/
def exC5B : DataFrame :=
  ⟨["idx_a", "idx_b"], [[.int 1, .int 0], [.int 9, .int 9]]⟩

/-- Exact-mode configuration keyed on idx_a/idx_b. -/
def cfgC5 : MergeConfig :=
  { key_fields := ["idx_a", "idx_b"], merge_similar := false }

/-- Counterexample to C5: a successful exact-mode merge in which
`_resolve_conflicts` fetches record A by the join row's idx_a VALUE 1
(A's row (0,0)) and record B by its idx_b value 0 (B's row (1,0)); the two
fetched records differ on the key field idx_a, and `_find_conflicts`
reports that key field as a conflict. -/
theorem key_field_conflict_cex :
    (merge exC5A exC5B cfgC5).success = true ∧
    "idx_a" ∈ cfgC5.key_fields ∧
    (merge exC5A exC5B cfgC5).conflicts =
      [⟨[("idx_a", .int 0), ("idx_b", .int 0)],
        [("idx_a", .int 0, .int 1)],
        [("idx_a", .int 0), ("idx_b", .int 0)]⟩] :=
  ⟨by decide, by decide, by decide⟩

theorem series_get?_eq_iff_mem (s : Series) (h : s.labels.Nodup)
    (f : String) (v : Value) : s.get? f = some v ↔ (f, v) ∈ s := by
  induction s with
  | nil => simp [Series.get?]
  | cons kv t ih =>
    obtain ⟨k, w⟩ := kv
    simp only [Series.labels, List.map_cons, List.nodup_cons] at h
    obtain ⟨hnot, hnd⟩ := h
    have ih' := ih hnd
    by_cases hk : k = f
    · subst hk
      rw [Series.get?, if_pos rfl]
      constructor
      · intro hg
        rw [Option.some.injEq] at hg
        subst hg
        exact List.mem_cons_self _ _
      · intro hm
        rcases List.mem_cons.mp hm with he | hmem
        · rw [Prod.mk.injEq] at he
          rw [he.2]
        · exact absurd (List.mem_map.mpr ⟨(k, v), hmem, rfl⟩) hnot
    · rw [Series.get?, if_neg hk]
      rw [ih']
      constructor
      · exact fun hmem => List.mem_cons_of_mem _ hmem
      · intro hm
        rcases List.mem_cons.mp hm with he | hmem
        · rw [Prod.mk.injEq] at he
          exact absurd he.1.symm hk
        · exact hmem

theorem get?_append_left_none (s t : Series) (f : String)
    (h : s.get? f = none) : (s ++ t).get? f = t.get? f := by
  induction s with
  | nil => rfl
  | cons kv r ih =>
    obtain ⟨k, w⟩ := kv
    rw [Series.get?] at h
    by_cases hk : k = f
    · rw [if_pos hk] at h
      exact absurd h (by simp)
    · rw [if_neg hk] at h
      rw [List.cons_append, Series.get?, if_neg hk]
      exact ih h

theorem get?_map_relabel_none (s : Series) (g : String × Value → Value)
    (f : String) (h : s.get? f = none) :
    Series.get? (s.map fun kv => (kv.1, g kv)) f = none := by
  induction s with
  | nil => rfl
  | cons kv r ih =>
    obtain ⟨k, w⟩ := kv
    rw [Series.get?] at h
    by_cases hk : k = f
    · rw [if_pos hk] at h
      exact absurd h (by simp)
    · rw [if_neg hk] at h
      rw [List.map_cons]
      rw [Series.get?, if_neg hk]
      exact ih h

theorem get?_filter_label (s : Series) (p : String → Bool) (f : String)
    (hp : p f = true) :
    Series.get? (s.filter fun kv => p kv.1) f = s.get? f := by
  induction s with
  | nil => rfl
  | cons kv r ih =>
    obtain ⟨k, w⟩ := kv
    rw [List.filter_cons]
    by_cases hk : k = f
    · subst hk
      rw [if_pos (by simpa using hp)]
      rw [Series.get?, if_pos rfl, Series.get?, if_pos rfl]
    · by_cases hpk : p k = true
      · rw [if_pos (by simpa using hpk)]
        rw [Series.get?, if_neg hk, Series.get?, if_neg hk]
        exact ih
      · rw [if_neg (by simpa using hpk)]
        rw [ih, Series.get?, if_neg hk]

theorem combineFirst_get?_right (a b : Series) (f : String) (v : Value)
    (ha : a.get? f = none) (hb : b.get? f = some v) :
    (a.combineFirst b).get? f = some v := by
  unfold Series.combineFirst
  rw [get?_append_left_none _ _ f (get?_map_relabel_none a _ f ha)]
  exact (get?_filter_label b (fun x => (a.get? x).isNone) f
    (by show (a.get? f).isNone = true
        rw [ha]
        rfl)).trans hb

theorem updateWith_labels (a b : Series) :
    (a.updateWith b).labels = a.labels := by
  unfold Series.updateWith Series.labels
  rw [List.map_map]
  apply List.map_congr_left
  intro kv _
  simp only [Function.comp_apply]
  cases h : b.get? kv.1 with
  | none => rfl
  | some w =>
    by_cases hw : w.isna = true
    · simp [hw]
    · simp [hw]

theorem setField_labels (s : Series) (f : String) (v : Value) :
    (s.setField f v).labels = s.labels := by
  unfold Series.setField Series.labels
  rw [List.map_map]
  apply List.map_congr_left
  intro kv _
  simp only [Function.comp_apply]
  by_cases hk : kv.1 = f
  · simp [hk]
  · simp [hk]

theorem combine_foldl_labels (cl : ConflictFields) (r : Series) :
    (cl.foldl
      (fun r kvv =>
        match kvv.2.1, kvv.2.2 with
        | .str x, .str y => r.setField kvv.1 (.str (x ++ " | " ++ y))
        | _, _ => r)
      r).labels = r.labels := by
  induction cl generalizing r with
  | nil => rfl
  | cons kvv t ih =>
    rw [List.foldl_cons, ih]
    obtain ⟨f, va, vb⟩ := kvv
    cases va <;> cases vb <;> first
      | rfl
      | exact setField_labels _ _ _

theorem apply_resolution_labels (a b : Series) (c : ConflictFields)
    (cfg : MergeConfig)
    (hns : cfg.conflict_strategy ≠ ConflictResolutionStrategy.CUSTOM)
    (r : Series) (h : apply_resolution_strategy a b c cfg = .ok r) :
    r.labels = a.labels := by
  unfold apply_resolution_strategy at h
  cases hcs : cfg.conflict_strategy with
  | KEEP_NEWEST =>
    rw [hcs] at h
    simp only [] at h
    cases hts : cfg.timestamp_field with
    | none =>
      rw [hts] at h
      simp only [Except.ok.injEq] at h
      rw [← h]
    | some ts =>
      rw [hts] at h
      simp only [] at h
      by_cases hemp : ts.isEmpty = true
      · rw [if_pos hemp] at h
        simp only [Except.ok.injEq] at h
        rw [← h]
      · rw [if_neg hemp] at h
        cases hgb : getField b ts with
        | error e => rw [hgb] at h; exact absurd h (by simp)
        | ok vb =>
          rw [hgb] at h
          cases hga : getField a ts with
          | error e => rw [hga] at h; exact absurd h (by simp)
          | ok va =>
            rw [hga] at h
            simp only [] at h
            by_cases hgt : vb.gtPy va = true
            · rw [if_pos hgt] at h
              simp only [Except.ok.injEq] at h
              rw [← h]
              exact updateWith_labels a b
            · rw [if_neg hgt] at h
              simp only [Except.ok.injEq] at h
              rw [← h]
  | KEEP_OLDEST =>
    rw [hcs] at h
    simp only [] at h
    cases hts : cfg.timestamp_field with
    | none =>
      rw [hts] at h
      simp only [Except.ok.injEq] at h
      rw [← h]
    | some ts =>
      rw [hts] at h
      simp only [] at h
      by_cases hemp : ts.isEmpty = true
      · rw [if_pos hemp] at h
        simp only [Except.ok.injEq] at h
        rw [← h]
      · rw [if_neg hemp] at h
        cases hgb : getField b ts with
        | error e => rw [hgb] at h; exact absurd h (by simp)
        | ok vb =>
          rw [hgb] at h
          cases hga : getField a ts with
          | error e => rw [hga] at h; exact absurd h (by simp)
          | ok va =>
            rw [hga] at h
            simp only [] at h
            by_cases hlt : vb.ltPy va = true
            · rw [if_pos hlt] at h
              simp only [Except.ok.injEq] at h
              rw [← h]
              exact updateWith_labels a b
            · rw [if_neg hlt] at h
              simp only [Except.ok.injEq] at h
              rw [← h]
  | KEEP_SOURCE_A =>
    rw [hcs] at h
    simp only [Except.ok.injEq] at h
    rw [← h]
  | KEEP_SOURCE_B =>
    rw [hcs] at h
    simp only [Except.ok.injEq] at h
    rw [← h]
    exact updateWith_labels a b
  | KEEP_MOST_COMPLETE =>
    rw [hcs] at h
    simp only [] at h
    by_cases hcnt : b.countNa < a.countNa
    · rw [if_pos hcnt] at h
      simp only [Except.ok.injEq] at h
      rw [← h]
      exact updateWith_labels a b
    · rw [if_neg hcnt] at h
      simp only [Except.ok.injEq] at h
      rw [← h]
  | COMBINE =>
    rw [hcs] at h
    simp only [Except.ok.injEq] at h
    rw [← h]
    exact combine_foldl_labels c a
  | CUSTOM => exact absurd hcs hns

/-- C5 (amended). For a matched pair of records: a field is reported by
`_find_conflicts` iff it is present in both records with both values
non-null and unequal — key fields are not excluded; a field present in
only one record is never a conflict, and when the pair has no conflicts it
is carried into the merged record by the left-biased fill of
`combine_first`; but when conflicts exist, every non-CUSTOM resolution
keeps exactly record A's fields, so a field present only in record B is
dropped rather than carried. -/
theorem conflict_iff_and_fill (ra rb : Series) (hA : ra.labels.Nodup) :
    (∀ f va vb, (f, va, vb) ∈ find_conflicts ra rb ↔
      ra.get? f = some va ∧ rb.get? f = some vb ∧
        va.isna = false ∧ vb.isna = false ∧ va ≠ vb) ∧
    (∀ f v, ra.get? f = none → rb.get? f = some v →
      (ra.combineFirst rb).get? f = some v) ∧
    (∀ c cfg r, cfg.conflict_strategy ≠ ConflictResolutionStrategy.CUSTOM →
      apply_resolution_strategy ra rb c cfg = .ok r →
        r.labels = ra.labels) := by
  refine ⟨?_, ?_, ?_⟩
  · intro f va vb
    unfold find_conflicts
    rw [List.mem_filterMap]
    constructor
    · rintro ⟨kv, hkv, hsome⟩
      cases hb : rb.get? kv.1 with
      | none => rw [hb] at hsome; exact absurd hsome (by simp)
      | some vb' =>
        rw [hb] at hsome
        simp only [] at hsome
        by_cases hcond : (!kv.2.isna && !vb'.isna && decide ¬kv.2 = vb') = true
        · rw [if_pos hcond] at hsome
          rw [Option.some.injEq, Prod.mk.injEq, Prod.mk.injEq] at hsome
          obtain ⟨h1, h2, h3⟩ := hsome
          simp only [Bool.and_eq_true, Bool.not_eq_true',
            decide_eq_true_eq] at hcond
          obtain ⟨⟨hna, hnb⟩, hne⟩ := hcond
          refine ⟨?_, ?_, ?_, ?_, ?_⟩
          · rw [← h1, ← h2]
            exact (series_get?_eq_iff_mem ra hA kv.1 kv.2).mpr
              (by simpa using hkv)
          · rw [← h1, ← h3]
            exact hb
          · rw [← h2]
            exact hna
          · rw [← h3]
            exact hnb
          · rw [← h2, ← h3]
            exact hne
        · rw [if_neg hcond] at hsome
          exact absurd hsome (by simp)
    · rintro ⟨h1, h2, h3, h4, h5⟩
      refine ⟨(f, va), (series_get?_eq_iff_mem ra hA f va).mp h1, ?_⟩
      rw [h2]
      show (if (!va.isna && !vb.isna && decide ¬va = vb) = true then
          some (f, va, vb) else none) = some (f, va, vb)
      rw [if_pos (by simp [h3, h4, h5])]
  · intro f v ha hb
    exact combineFirst_get?_right ra rb f v ha hb
  · intro c cfg r hns h
    exact apply_resolution_labels ra rb c cfg hns r h

end DataMerger

namespace DataMerger

/-- Record A for the C5 witness: key k plus a null field x. -/
def recW5A : Series := [("k", .str "a"), ("x", .null)]

/-- Record B for the C5 witness: differing key plus a B-only field y. -/
def recW5B : Series := [("k", .str "b"), ("y", .int 2)]

/-- KEEP_SOURCE_B configuration used in the C5 witness. -/
def cfgW5 : MergeConfig :=
  { key_fields := ["k"], conflict_strategy := .KEEP_SOURCE_B,
    merge_similar := false }

/-- Witness for C5 (amended): on two concrete records the key field k is a
reported conflict, the B-only field y survives the no-conflict fill, and
the KEEP_SOURCE_B resolution of the pair keeps exactly record A's labels
(so y would be dropped). -/
theorem conflict_iff_and_fill_witness :
    (("k", Value.str "a", Value.str "b") ∈ find_conflicts recW5A recW5B) ∧
    Series.get? (recW5A.combineFirst recW5B) "y" = some (.int 2) ∧
    Series.labels [("k", Value.str "b"), ("x", Value.null)] = recW5A.labels :=
  ⟨((conflict_iff_and_fill recW5A recW5B (by decide)).1 "k" (.str "a")
      (.str "b")).mpr ⟨rfl, rfl, rfl, rfl, by decide⟩,
   (conflict_iff_and_fill recW5A recW5B (by decide)).2.1 "y" (.int 2) rfl rfl,
   (conflict_iff_and_fill recW5A recW5B (by decide)).2.2
     (find_conflicts recW5A recW5B) cfgW5
     [("k", Value.str "b"), ("x", Value.null)] (by decide) rfl⟩

/-- CUSTOM strategy with no resolver, over the key-conflict probe. -/
def cfgC9 : MergeConfig :=
  { key_fields := ["idx_a", "idx_b"], merge_similar := false,
    conflict_strategy := .CUSTOM }

/-- Counterexample to C9: a merge configured with the CUSTOM strategy but
no custom resolver is not rejected by any validation step; on the one
completing pipeline path it finishes with `success=True`, resolving its
key-field conflict by silently keeping record A. -/
theorem invalid_config_success_cex :
    cfgC9.conflict_strategy = ConflictResolutionStrategy.CUSTOM ∧
    cfgC9.custom_resolver = none ∧
    (merge exC5A exC5B cfgC9).success = true ∧
    (merge exC5A exC5B cfgC9).conflicts =
      [⟨[("idx_a", .int 0), ("idx_b", .int 0)],
        [("idx_a", .int 0, .int 1)],
        [("idx_a", .int 0), ("idx_b", .int 0)]⟩] :=
  ⟨rfl, rfl, by decide, by decide⟩

/-- C9 (amended). Neither a CUSTOM strategy without a resolver nor a
KEEP_NEWEST/KEEP_OLDEST strategy without a timestamp field is validated
anywhere: `_validate_merge_keys` checks only key columns, and
`_apply_resolution_strategy` silently resolves every conflict to record A
under such configurations instead of failing. -/
theorem silent_fallback_keep_a (ra rb : Series) (c : ConflictFields)
    (cfg : MergeConfig)
    (h : (cfg.conflict_strategy = ConflictResolutionStrategy.CUSTOM ∧
            cfg.custom_resolver = none) ∨
          ((cfg.conflict_strategy = ConflictResolutionStrategy.KEEP_NEWEST ∨
              cfg.conflict_strategy = ConflictResolutionStrategy.KEEP_OLDEST) ∧
            cfg.timestamp_field = none)) :
    apply_resolution_strategy ra rb c cfg = .ok ra := by
  unfold apply_resolution_strategy
  rcases h with ⟨hcs, hcr⟩ | ⟨hcs | hcs, hts⟩
  · rw [hcs, hcr]
  · rw [hcs, hts]
  · rw [hcs, hts]

/-- CUSTOM strategy with no resolver, for the C9 witness. -/
def cfgW9 : MergeConfig :=
  { key_fields := ["id"], conflict_strategy := .CUSTOM,
    merge_similar := false }

/-- Witness for C9 (amended): on the strategy-correctness records, CUSTOM
with no resolver resolves to record A unchanged. -/
theorem silent_fallback_keep_a_witness :
    apply_resolution_strategy recA6 recB6 (find_conflicts recA6 recB6)
      cfgW9 = .ok recA6 :=
  silent_fallback_keep_a recA6 recB6 (find_conflicts recA6 recB6) cfgW9
    (Or.inl ⟨rfl, rfl⟩)

end DataMerger

namespace DataMerger

/-- Source A of the fuzzy multiple-match probe: one record. -/
def exA3 : DataFrame := ⟨["k"], [[.str "ab"]]⟩

/-- Source B of the fuzzy multiple-match probe: two records equal to A's. -/
def exB3 : DataFrame := ⟨["k"], [[.str "ab"], [.str "ab"]]⟩

/-- Default (fuzzy) configuration keyed on k. -/
def cfgEx3 : MergeConfig := { key_fields := ["k"] }

/-- Fidelity check of the fuzzy path, not tied to one claim: any fuzzy
merge with at least one match dies on its first match row, because
`matches.iterrows()` upcasts the int64 idx_a/idx_b together with the
float64 similarity column to float64 and `df.iloc` rejects the float key
with a TypeError; so no fuzzy merge ever returns success. -/
theorem fuzzy_merge_iloc_typeerror :
    (merge exA3 exB3 cfgEx3).success = false ∧
    (merge exA3 exB3 cfgEx3).errors =
      ["Cannot index by location index with a non-integer key"] ∧
    (merge exA3 exB3 cfgEx3).merged_data = none :=
  ⟨by decide, by decide, by decide⟩

/-- Source A of the suffix-cleanup probe: caller columns idx_a/idx_b (the
completing exact-mode shape) plus an ordinary note column. -/
def exC10A : DataFrame :=
  ⟨["idx_a", "idx_b", "note"],
    [[.int 1, .int 0, .str "p"], [.int 0, .int 0, .str "q"]]⟩

/-- Source B of the suffix-cleanup probe: one record, keys (1, 0). -/
def exC10B : DataFrame :=
  ⟨["idx_a", "idx_b", "note"], [[.int 1, .int 0, .str "r"]]⟩

/-- Exact-mode KEEP_SOURCE_A configuration keyed on idx_a/idx_b. -/
def cfgC10 : MergeConfig :=
  { key_fields := ["idx_a", "idx_b"], merge_similar := false,
    conflict_strategy := .KEEP_SOURCE_A }

/-- Witness for C10: a successful merge whose output keeps only the note
column — the caller-supplied idx_a and idx_b columns themselves are
dropped by the suffix cleanup, exactly because their names end in "_a" and
"_b"; the theorem applies to the output frame's one remaining column. -/
theorem merged_no_suffix_cols_witness :
    (merge exC10A exC10B cfgC10).success = true ∧
    (merge exC10A exC10B cfgC10).merged_data =
      some ⟨["note"], [[.str "q"], [.str "p"]]⟩ ∧
    ends_with "note" "_a" = false ∧ ends_with "note" "_b" = false :=
  ⟨by decide, by decide,
   (merged_no_suffix_cols exC10A exC10B cfgC10 (by decide)
     ⟨["note"], [[.str "q"], [.str "p"]]⟩ (by decide) "note" (by decide)).1,
   (merged_no_suffix_cols exC10A exC10B cfgC10 (by decide)
     ⟨["note"], [[.str "q"], [.str "p"]]⟩ (by decide) "note" (by decide)).2⟩

end DataMerger
